import Mathlib

/-!
Verification development for the distributed Monte Carlo simulation system
(productor.py, consumidor.py, colector.py, dashboard.py).

The Python modules are shallowly embedded: pure helpers become Lean
functions over `List Char` / `Rat`; the message-driven callbacks become
explicit state-passing functions; I/O failures and the RNG are abstracted
as explicit oracles (a `SampleReq → Rat` sampling function, an `IOFail`
injection point).  Python floats are modelled exactly as rationals: none of
the properties below compares two differently-rounded float computations,
so exact arithmetic is a faithful abstraction at this granularity.
-/

/-- Rational numbers stand in for Python floats. -/
abbrev Q := Rat

deriving instance DecidableEq for Except

/-- Python runtime values that flow through JSON payloads: strings,
numbers and None. -/
inductive PyVal where
  | s (v : String)
  | num (v : Q)
  | noneV
deriving DecidableEq, Repr

/-- Python exceptions that the embedded code can raise. -/
inductive PyErr where
  | valueError (msg : String)
  | typeError (msg : String)
  | indexError
deriving DecidableEq, Repr

/-! ## Python string primitives (modelled over `List Char`) -/

/-- Whitespace characters recognised by Python `str.strip` / `\s`
(space, tab, newline, carriage return, vertical tab, form feed). -/
def pyWsp (c : Char) : Bool :=
  c = ' ' || c = '\t' || c = '\n' || c = '\r' || c = Char.ofNat 11 || c = Char.ofNat 12

/-- ASCII decimal digit test. -/
def esDigito (c : Char) : Bool := '0' ≤ c && c ≤ '9'

/-- Strip leading and trailing whitespace (Python `str.strip`). -/
def pyStripChars (cs : List Char) : List Char :=
  ((cs.dropWhile pyWsp).reverse.dropWhile pyWsp).reverse

/-- Python `str.strip` on strings. -/
def pyStrip (s : String) : String := String.mk (pyStripChars s.data)

/-- Does `cs` start with `pat`? (anchored prefix test, as used by
Python `str.startswith` and anchored `re.match` literals). -/
def empiezaCon : List Char → List Char → Bool
  | [], _ => true
  | _ :: _, [] => false
  | p :: ps, c :: cs => p = c && empiezaCon ps cs

/-- Python `str.startswith` on strings. -/
def pyStartsWith (s pat : String) : Bool := empiezaCon pat.data s.data

/-- Python `str.replace(pat, rep)`, written with an explicit fuel
argument (one unit per consumed character) so that it is structurally
recursive and evaluates by reduction; `reemplaza` supplies adequate
fuel.  (Python treats an empty pattern specially; the patterns used by
the source are never empty, so that case degenerates harmlessly.) -/
def reemplazaFuel (pat rep : List Char) : Nat → List Char → List Char
  | _, [] => []
  | 0, cs => cs
  | fuel + 1, c :: rest =>
    if empiezaCon pat (c :: rest) && !pat.isEmpty then
      rep ++ reemplazaFuel pat rep fuel (List.drop (pat.length - 1) rest)
    else
      c :: reemplazaFuel pat rep fuel rest

/-- Python `str.replace(pat, rep)`: replace every occurrence. -/
def reemplaza (pat rep cs : List Char) : List Char :=
  reemplazaFuel pat rep cs.length cs

/-- Python `str.replace` on strings. -/
def pyReplace (s pat rep : String) : String :=
  String.mk (reemplaza pat.data rep.data s.data)

/-- Python `str.splitlines` (handles `\n`, `\r\n` and `\r`; the empty
string yields no lines, and a trailing terminator adds no empty line). -/
def splitLinesPy : List Char → List (List Char)
  | [] => []
  | '\r' :: '\n' :: rest => [] :: splitLinesPy rest
  | '\n' :: rest => [] :: splitLinesPy rest
  | '\r' :: rest => [] :: splitLinesPy rest
  | c :: rest =>
    match splitLinesPy rest with
    | [] => [[c]]
    | l :: ls => (c :: l) :: ls

/-- Python `str.split(sep)` for a single-character separator: always
returns one more part than there are separator occurrences. -/
def splitOnChar (sep : Char) : List Char → List (List Char)
  | [] => [[]]
  | c :: rest =>
    if c = sep then [] :: splitOnChar sep rest
    else
      match splitOnChar sep rest with
      | [] => [[c]]
      | p :: ps => (c :: p) :: ps

/-! ## Python numeric conversions -/

/-- Decimal value of a digit run. -/
def valorDigitos (ds : List Char) : Nat :=
  ds.foldl (fun a c => a * 10 + (c.toNat - 48)) 0

/-- Optional leading sign; returns the sign and the remaining input. -/
def leeSigno : List Char → (Int × List Char)
  | '+' :: rest => (1, rest)
  | '-' :: rest => (-1, rest)
  | cs => (1, cs)

/-- Python `int(str)`: optional surrounding whitespace, optional sign,
one or more digits, nothing else.  (Underscore digit separators are not
used by any input considered here.) -/
def pyIntChars (cs : List Char) : Option Int :=
  let cs1 := cs.dropWhile pyWsp
  let p := leeSigno cs1
  let ds := p.2.takeWhile esDigito
  let rest := p.2.dropWhile esDigito
  if ds.isEmpty then none
  else if (rest.dropWhile pyWsp).isEmpty then some (p.1 * (valorDigitos ds : Int))
  else none

/-- Python `int(str)` on strings. -/
def pyInt (s : String) : Option Int := pyIntChars s.data

/-- Final step of `float` parsing: integer part, fraction digits, and the
remaining input which must be only whitespace.  The value
`sgn * (ip + frac / 10^k)` is built with `mkRat` over integers so that it
evaluates by reduction. -/
def finRat (sgn : Int) (ip : Nat) (fs : List Char) (rest : List Char) : Option Q :=
  if (rest.dropWhile pyWsp).isEmpty then
    some (mkRat (sgn * ((ip : Int) * (10 : Int) ^ fs.length + (valorDigitos fs : Int)))
      ((10 : Nat) ^ fs.length))
  else none

/-- Python `float(str)` on the decimal forms the source exercises:
optional surrounding whitespace, optional sign, `digits`, `digits.`,
`digits.digits` or `.digits`.  (Exponent, `inf` and `nan` forms are not
produced by any input considered here.) -/
def pyFloatChars (cs : List Char) : Option Q :=
  let cs1 := cs.dropWhile pyWsp
  let p := leeSigno cs1
  let ds := p.2.takeWhile esDigito
  let rest := p.2.dropWhile esDigito
  match ds, rest with
  | [], '.' :: cs4 =>
    let fs := cs4.takeWhile esDigito
    if fs.isEmpty then none
    else finRat p.1 0 fs (cs4.dropWhile esDigito)
  | [], _ => none
  | _, '.' :: cs4 =>
    finRat p.1 (valorDigitos ds) (cs4.takeWhile esDigito) (cs4.dropWhile esDigito)
  | _, _ => finRat p.1 (valorDigitos ds) [] rest

/-- Python `float(str)` on strings. -/
def pyFloat (s : String) : Option Q := pyFloatChars s.data

/-! ## Python dictionaries (association lists with unique keys,
insertion-ordered, as Python dicts are) -/

/-- Dictionary lookup (`d[k]` / `d.get(k)`). -/
def dget {A : Type} : List (String × A) → String → Option A
  | [], _ => none
  | (k, v) :: rest, n => if k = n then some v else dget rest n

/-- Dictionary assignment `d[k] = v`: overwrite in place, else append. -/
def dinsert {A : Type} : List (String × A) → String → A → List (String × A)
  | [], n, v => [(n, v)]
  | (k, w) :: rest, n, v =>
    if k = n then (k, v) :: rest else (k, w) :: dinsert rest n v

/-- Python `d1.update(d2)`: assign every pair of `d2` into `d1`, in order. -/
def dupdate {A : Type} (d1 d2 : List (String × A)) : List (String × A) :=
  d2.foldl (fun acc p => dinsert acc p.1 p.2) d1

/-! ## The distribution regular expressions of `_evaluar_distribucion`

The producer matches, via anchored `re.match`, the patterns for
`uniform`, `normal`, `triangular` and `constante` argument lists.  A
character-class group followed by a literal stop character captures the
(non-empty) run up to the first stop character; a whitespace star before
such a group eats leading whitespace greedily, backing off just enough
to leave the group at least one character. -/

/-- Match a non-empty run up to the first `stop` character (which must
exist) at the head of the input; returns the capture and the input after
the `stop`. -/
def capturaHasta (stop : Char) (cs : List Char) : Option (List Char × List Char) :=
  let pre := cs.takeWhile (fun c => !(c = stop))
  match cs.dropWhile (fun c => !(c = stop)) with
  | [] => none
  | _ :: resto => if pre.isEmpty then none else some (pre, resto)

/-- Like `capturaHasta`, but with a preceding greedy whitespace star
that backtracks just enough to leave the captured group non-empty. -/
def capturaGrupo (stop : Char) (cs : List Char) : Option (List Char × List Char) :=
  match capturaHasta stop cs with
  | none => none
  | some (pre, resto) =>
    let nws := (pre.takeWhile pyWsp).length
    some (pre.drop (min nws (pre.length - 1)), resto)

/-- Strip a required literal at the head of the input. -/
def trasLiteral (pat cs : List Char) : Option (List Char) :=
  if empiezaCon pat cs then some (cs.drop pat.length) else none

/-- The regex for `uniform(a, b)` (two captured argument strings);
identical shape for `normal(mu, sigma)`.  `nombre` is the literal head,
comma included opening parenthesis. -/
def matchDosArgs (nombre : String) (s : String) : Option (String × String) :=
  match trasLiteral nombre.data s.data with
  | none => none
  | some r1 =>
    match capturaHasta ',' r1 with
    | none => none
    | some (g1, r2) =>
      match capturaGrupo ')' r2 with
      | none => none
      | some (g2, _) => some (String.mk g1, String.mk g2)

/-- The regex for `triangular(a, b, c)` (three captured argument strings). -/
def matchTresArgs (s : String) : Option (String × String × String) :=
  match trasLiteral "triangular(".data s.data with
  | none => none
  | some r1 =>
    match capturaHasta ',' r1 with
    | none => none
    | some (g1, r2) =>
      match capturaGrupo ',' r2 with
      | none => none
      | some (g2, r3) =>
        match capturaGrupo ')' r3 with
        | none => none
        | some (g3, _) => some (String.mk g1, String.mk g2, String.mk g3)

/-- The regex for `constante(x)` (one captured argument string). -/
def matchConstante (s : String) : Option String :=
  match trasLiteral "constante(".data s.data with
  | none => none
  | some r1 =>
    match capturaHasta ')' r1 with
    | none => none
    | some (g, _) => some (String.mk g)

/-! ## Distribution Expression Evaluator (`_evaluar_distribucion`) -/

/-- The draw that `_evaluar_distribucion` requests from the numpy RNG
(or, for `constante`, produces directly); the random sampling itself is
external to the repository and is abstracted as a `SampleReq → Q` oracle. -/
inductive SampleReq where
  | uniformS (a b : Q)
  | normalS (mu sigma : Q)
  | triangularS (l m h : Q)
  | constS (v : Q)
deriving DecidableEq, Repr

/-- A distribution spec as it reaches `_evaluar_distribucion`: a string
or a JSON list.  Other JSON value types would follow the same
fall-through path as non-`constante` lists. -/
inductive DistExpr where
  | str (v : String)
  | list (items : List PyVal)
deriving DecidableEq, Repr

/-- Python `float(x)` on a runtime value. -/
def pyFloatVal : PyVal → Except PyErr Q
  | .num q => .ok q
  | .s t =>
    match pyFloat t with
    | some q => .ok q
    | none => .error (.valueError "could not convert string to float")
  | .noneV => .error (.typeError "float() argument must be a string or a number")

/-- The string path of `_evaluar_distribucion`: the four anchored
regexes tried in order, arguments converted with `float`, otherwise a
ValueError naming the unrecognized distribution. -/
def evaluarCadena (e : String) : Except PyErr SampleReq :=
  match matchDosArgs "uniform(" e with
  | some (g1, g2) => do
    let a ← pyFloatVal (.s g1)
    let b ← pyFloatVal (.s g2)
    return .uniformS a b
  | none =>
    match matchDosArgs "normal(" e with
    | some (g1, g2) => do
      let mu ← pyFloatVal (.s g1)
      let sg ← pyFloatVal (.s g2)
      return .normalS mu sg
    | none =>
      match matchTresArgs e with
      | some (g1, g2, g3) => do
        let a ← pyFloatVal (.s g1)
        let b ← pyFloatVal (.s g2)
        let c ← pyFloatVal (.s g3)
        return .triangularS a b c
      | none =>
        match matchConstante e with
        | some g => do
          let v ← pyFloatVal (.s g)
          return .constS v
        | none => .error (.valueError ("Distribución no reconocida: " ++ e))

/-- `MonteCarloProductor._evaluar_distribucion`, up to the sampling
oracle: the list compatibility branch first, then the regex chain.  A
list whose first element is not the string constant kind falls through
to the regex matcher, which raises `TypeError` on a non-string
argument; indexing an empty list raises `IndexError`. -/
def evaluarDistribucionSpec : DistExpr → Except PyErr SampleReq
  | .list items =>
    match items with
    | [] => .error .indexError
    | hd :: resto =>
      if hd = PyVal.s "constante" then
        match resto with
        | [] => .error .indexError
        | v :: _ => (pyFloatVal v).map .constS
      else
        .error (.typeError "expected string or bytes-like object")
  | .str e => evaluarCadena e

/-- `_evaluar_distribucion` composed with the sampling oracle. -/
def evaluarDistribucion (muestra : SampleReq → Q) (e : DistExpr) : Except PyErr Q :=
  (evaluarDistribucionSpec e).map muestra

example : evaluarDistribucionSpec (.str "uniform(5, 1)") = .ok (.uniformS 5 1) := by decide

example : evaluarDistribucionSpec (.str "normal(0, -1)") = .ok (.normalS 0 (-1)) := by decide

example : evaluarDistribucionSpec (.str "triangular(3, 2, 1)") = .ok (.triangularS 3 2 1) := by
  decide

example : evaluarDistribucionSpec (.str "constante(2)") = .ok (.constS 2) := by decide

example : evaluarDistribucionSpec (.str "poisson(2)") =
    .error (.valueError "Distribución no reconocida: poisson(2)") := by decide

example : evaluarDistribucionSpec (.list [.s "uniform", .num 1]) =
    .error (.typeError "expected string or bytes-like object") := by decide

/-! ## Model Definition and Model Parsing (`leer_modelo`, `_parsear_modelo`) -/

/-- The model dictionary as the producer manipulates it.  The DSL parser
fills exactly `model` / `constants` / `distributions`; a JSON source may
additionally carry a `variables` key, which `generar_escenarios` prefers
over `distributions` when present. -/
structure Modelo where
  model : Option String
  constants : List (String × Q)
  distributions : List (String × DistExpr)
  variablesM : Option (List (String × DistExpr)) := none
deriving DecidableEq, Repr

/-- Current section while scanning DSL lines. -/
inductive Sec where
  | ninguna
  | modelS
  | constantsS
  | distributionsS
deriving DecidableEq, Repr

/-- One iteration of the `_parsear_modelo` line loop: strip the line,
skip blanks and comments, switch sections on the three section headers,
and otherwise record a `key=value` constant or a `var~dist` distribution
line.  `k, v = linea.split("=")` raises `ValueError` unless the split
yields exactly two parts, and `float(v.strip())` raises `ValueError` on
a non-numeric value. -/
def procesarLinea (st : Sec × Modelo) (lineaRaw : List Char) : Except PyErr (Sec × Modelo) :=
  let linea := pyStripChars lineaRaw
  if linea.isEmpty || empiezaCon "#".data linea then .ok st
  else if empiezaCon "model:".data linea then
    .ok (.modelS, { st.2 with
      model := some (String.mk (pyStripChars (reemplaza "model:".data [] linea))) })
  else if empiezaCon "constants:".data linea then .ok (.constantsS, st.2)
  else if empiezaCon "distributions:".data linea then .ok (.distributionsS, st.2)
  else if st.1 = .constantsS && linea.contains '=' then
    match splitOnChar '=' linea with
    | [k, v] =>
      match pyFloatChars (pyStripChars v) with
      | some q => .ok (st.1, { st.2 with
          constants := dinsert st.2.constants (String.mk (pyStripChars k)) q })
      | none => .error (.valueError "could not convert string to float")
    | _ => .error (.valueError "too many values to unpack")
  else if st.1 = .distributionsS && linea.contains '~' then
    match splitOnChar '~' linea with
    | [var, expr] => .ok (st.1, { st.2 with
        distributions := dinsert st.2.distributions (String.mk (pyStripChars var))
          (.str (String.mk (pyStripChars expr))) })
    | _ => .error (.valueError "too many values to unpack")
  else .ok st

/-- Process the list of lines in order, propagating the first raised
exception. -/
def procesaLineas : List (List Char) → Sec × Modelo → Except PyErr (Sec × Modelo)
  | [], st => .ok st
  | l :: rest, st =>
    match procesarLinea st l with
    | .error e => .error e
    | .ok st2 => procesaLineas rest st2

/-- The empty section dictionary `_parsear_modelo` starts from. -/
def modeloVacio : Modelo := { model := none, constants := [], distributions := [] }

/-- `MonteCarloProductor._parsear_modelo`: scan the text line by line. -/
def parsearModelo (texto : String) : Except PyErr Modelo :=
  (procesaLineas (splitLinesPy texto.data) (.ninguna, modeloVacio)).map (fun st => st.2)

/-- `MonteCarloProductor.leer_modelo`: strip the file content, attempt
the structured (JSON) parse — abstracted as an oracle returning the
decoded model or `none` on `json.JSONDecodeError` — and only on that
failure fall back to the line-oriented DSL parser. -/
def leerModelo (jsonLoads : String → Option Modelo) (texto : String) : Except PyErr Modelo :=
  let contenido := pyStrip texto
  match jsonLoads contenido with
  | some m => .ok m
  | none => parsearModelo contenido

example : parsearModelo "constants:\nx = 1" =
    .ok { model := none, constants := [("x", 1)], distributions := [] } := by decide

example : parsearModelo "model: resultado = x\nconstants:\na=b=c" =
    .error (.valueError "too many values to unpack") := by decide

example : parsearModelo "model: resultado = g * 2\n# comentario\nconstants:\ng = 9.8\ndistributions:\nx ~ uniform(0, 1)" =
    .ok { model := some "resultado = g * 2", constants := [("g", mkRat 98 10)],
          distributions := [("x", .str "uniform(0, 1)")] } := by decide

/-! ## Scenario Generator (`generar_escenarios`) -/

/-- One scenario: a full sampling pass over the declared distributions,
assigning `escenario[var] = _evaluar_distribucion(expr)` in order. -/
def generarEscenario (muestra : SampleReq → Q) (distros : List (String × DistExpr)) :
    Except PyErr (List (String × Q)) :=
  distros.foldlM (fun esc p => (evaluarDistribucion muestra p.2).map (dinsert esc p.1)) []

/-- The `for _ in range(cantidad)` loop building the scenario list. -/
def generarLista (muestra : SampleReq → Q) (distros : List (String × DistExpr)) :
    Nat → Except PyErr (List (List (String × Q)))
  | 0 => .ok []
  | n + 1 => do
    let esc ← generarEscenario muestra distros
    let rest ← generarLista muestra distros n
    return esc :: rest

/-- `MonteCarloProductor.generar_escenarios`: the distribution table is
`modelo.get("variables", modelo.get("distributions", {}))`, and
`range(cantidad)` yields `max cantidad 0` iterations. -/
def generarEscenarios (muestra : SampleReq → Q) (m : Modelo) (cantidad : Int) :
    Except PyErr (List (List (String × Q))) :=
  generarLista muestra (m.variablesM.getD m.distributions) cantidad.toNat

/-- The scenario-count prompt of the producer `__main__` block:
`int(cantidad) if cantidad.strip() else 100`, with a `ValueError`
falling back to 100. -/
def leerCantidad (entrada : String) : Int :=
  if pyStrip entrada = "" then 100
  else
    match pyInt entrada with
    | some n => n
    | none => 100

example : leerCantidad "" = 100 := by decide

example : leerCantidad " 25 " = 25 := by decide

example : leerCantidad "abc" = 100 := by decide

example : leerCantidad "0" = 0 := by decide

example : leerCantidad "-5" = -5 := by decide

/-! ## Worker (`ConsumidorMontecarlo`) -/

/-- One binding environment: a scenario or constants table. -/
abbrev Entorno := List (String × Q)

/-- The binding environment that `ejecutar_modelo` hands to `eval`:
start from the empty dict, `update` with the scenario first, then
`update` with the model constants — so on a name collision the constant
written second wins. -/
def construirEntorno (esc : Entorno) (constants : Entorno) : Entorno :=
  dupdate (dupdate [] esc) constants

/-- The expression text `ejecutar_modelo` derives from the model:
`modelo["model"].replace("resultado =", "").strip()`. -/
def expresionDe (formula : String) : String :=
  pyStrip (pyReplace formula "resultado =" "")

/-- `ConsumidorMontecarlo.ejecutar_modelo`.  The host-language `eval` is
abstracted as an oracle from expression text and environment to a value
or an evaluation exception.  A missing or `None` `model` entry raises
outside the try block (modelled as `.error`); any exception inside the
try block is caught and turned into `None` (modelled as `.ok none`). -/
def ejecutarModelo (evalF : String → Entorno → Except String Q) (m : Modelo)
    (esc : Entorno) : Except PyErr (Option Q) :=
  match m.model with
  | none => .error (.typeError "NoneType object has no attribute replace")
  | some formula =>
    let expresion := expresionDe formula
    let entorno := construirEntorno esc m.constants
    match evalF expresion entorno with
    | .ok v => .ok (some v)
    | .error _ => .ok none

/-- A result record as the worker publishes it on the result channel. -/
structure ResultMsg where
  worker_id : String
  esc : Entorno
  resultado : Q
  timestamp : Q
deriving DecidableEq, Repr

/-- The observable worker state touched by one callback invocation:
results published so far and the published-results counter. -/
structure WorkerState where
  publicados : List ResultMsg
  contador : Nat
deriving DecidableEq, Repr

/-- `ConsumidorMontecarlo.procesar_escenario`: evaluate the model on the
scenario; publish a result record and bump the counter only when the
evaluation produced a value; acknowledge the delivery in either case.
The returned `Bool` is the acknowledgement; an exception escaping the
callback (the `.error` case of `ejecutar_modelo`) is propagated. -/
def procesarEscenario (evalF : String → Entorno → Except String Q) (m : Modelo)
    (wid : String) (ts : Q) (st : WorkerState) (esc : Entorno) :
    Except PyErr (WorkerState × Bool) :=
  match ejecutarModelo evalF m esc with
  | .error e => .error e
  | .ok none => .ok (st, true)
  | .ok (some v) =>
    .ok ({ publicados := st.publicados ++ [⟨wid, esc, v, ts⟩],
           contador := st.contador + 1 }, true)

example : dget (construirEntorno [("x", 1)] [("x", 2)]) "x" = some 2 := by decide

/-! ## Aggregator (`ResultCollector._procesar_resultado`) -/

/-- An inbound result message after JSON decoding: `resultado` as the
raw value `msg.get("resultado")` yields (None when the key is missing),
the scenario dict, and the optional worker id. -/
structure ResultMsgIn where
  resultado : PyVal
  esc : List (String × PyVal)
  worker_id : Option String
deriving DecidableEq, Repr

/-- One line of the durable result log, kept structurally (timestamp,
worker, scenario, the 4-decimal-formatted value). -/
structure LogLine where
  ts : String
  worker : String
  esc : List (String × PyVal)
  valor : Q
deriving DecidableEq, Repr

/-- A display projection message sent to the dashboard channel. -/
structure DashMsg where
  worker_id : String
  resultado : PyVal
  timestamp : String
deriving DecidableEq, Repr

/-- The collector state observable across callback invocations: the log
file (written lines and how many of them are flushed), the in-memory
results list, the published projections, and the ack/nack counters. -/
structure CState where
  lines : List LogLine
  flushedLines : Nat
  resultados : List PyVal
  dashboard : List DashMsg
  acks : Nat
  nacks : Nat
deriving DecidableEq, Repr

/-- Injection point for I/O failures inside the try block: the file
write, the file flush, or the dashboard publish may raise. -/
inductive IOFail where
  | ninguno
  | write
  | flush
  | publish
deriving DecidableEq, Repr

/-- Formatting `f"{resultado:.4f}"` succeeds only on a number (on None
or a string the f-string raises), and the wire value is carried exactly. -/
def fmt4 : PyVal → Option Q
  | .num q => some q
  | _ => none

/-- `ResultCollector._procesar_resultado`: inside the try block, format
and write the log line, flush, append to the in-memory results, publish
the display projection, and acknowledge; any exception jumps to the
handler, which negatively acknowledges — leaving the effects of the
steps already completed in place.  `cuerpo = none` models a JSON decode
failure; `falla` injects an I/O failure at one of the three I/O steps. -/
def procesarResultado (falla : IOFail) (cuerpo : Option ResultMsgIn) (ts : String)
    (st : CState) : CState :=
  match cuerpo with
  | none => { st with nacks := st.nacks + 1 }
  | some msg =>
    let worker := msg.worker_id.getD "desconocido"
    match fmt4 msg.resultado with
    | none => { st with nacks := st.nacks + 1 }
    | some q =>
      if falla = .write then { st with nacks := st.nacks + 1 }
      else
        let st1 := { st with lines := st.lines ++ [({ ts := ts, worker := worker, esc := msg.esc, valor := q } : LogLine)] }
        if falla = .flush then { st1 with nacks := st1.nacks + 1 }
        else
          let st2 := { st1 with flushedLines := st1.lines.length }
          let st3 := { st2 with resultados := st2.resultados ++ [msg.resultado] }
          if falla = .publish then { st3 with nacks := st3.nacks + 1 }
          else
            let st4 := { st3 with dashboard := st3.dashboard ++ [({ worker_id := worker, resultado := msg.resultado, timestamp := ts } : DashMsg)] }
            { st4 with acks := st4.acks + 1 }

/-! ## Dashboard data store (`AlmacenDatos.agregar_resultado`) -/

/-- Per-worker display data: assigned colour index, recent history,
count, last value. -/
structure WEntry where
  color : Nat
  historial : List Q
  conteo : Nat
  ultimo : Q
deriving DecidableEq, Repr

/-- The history update of `agregar_resultado`: append, then pop the
oldest element once the length exceeds 200. -/
def historialStep (h : List Q) (r : Q) : List Q :=
  let h2 := h ++ [r]
  if h2.length > 200 then h2.tail else h2

/-- `AlmacenDatos.agregar_resultado`: create the entry on first sight
(colour cycling through the 6-entry palette), update the history, bump
the count and record the last value. -/
def agregarResultado (datos : List (String × WEntry)) (wid : String) (r : Q) :
    List (String × WEntry) :=
  let datos1 :=
    if (dget datos wid).isSome then datos
    else dinsert datos wid ⟨datos.length % 6, [], 0, r⟩
  match dget datos1 wid with
  | none => datos1
  | some d =>
    dinsert datos1 wid ⟨d.color, historialStep d.historial r, d.conteo + 1, r⟩

/-- Fold a stream of `(worker, value)` display messages into the store. -/
def procesaMsgs (datos : List (String × WEntry)) (msgs : List (String × Q)) :
    List (String × WEntry) :=
  msgs.foldl (fun d p => agregarResultado d p.1 p.2) datos

/-- The values of the stream addressed to one worker, in order. -/
def resultadosDe (wid : String) (msgs : List (String × Q)) : List Q :=
  msgs.filterMap (fun p => if p.1 = wid then some p.2 else none)

/-- The last (at most) 200 elements of a list. -/
def ultimos200 (l : List Q) : List Q := l.drop (l.length - 200)

example : dget (procesaMsgs [] [("a", 1), ("b", 5), ("a", 2)]) "a" =
    some { color := 0, historial := [1, 2], conteo := 2, ultimo := 2 } := by decide

example : dget (procesaMsgs [] [("a", 1), ("b", 5), ("a", 2)]) "b" =
    some { color := 1, historial := [5], conteo := 1, ultimo := 5 } := by decide

/-! ## Dictionary lemmas -/

theorem dget_dinsert_self {A : Type} (d : List (String × A)) (k : String) (v : A) :
    dget (dinsert d k v) k = some v := by
  induction d with
  | nil => simp [dinsert, dget]
  | cons p rest ih =>
    by_cases h : p.1 = k
    · simp [dinsert, dget, h]
    · simp [dinsert, dget, h, ih]

theorem dget_dinsert_ne {A : Type} (d : List (String × A)) (k n : String) (v : A)
    (h : k ≠ n) : dget (dinsert d k v) n = dget d n := by
  induction d with
  | nil => simp [dinsert, dget, h]
  | cons p rest ih =>
    by_cases hp : p.1 = k
    · simp [dinsert, dget, hp, h]
    · simp only [dinsert, hp, if_false]
      by_cases hn : p.1 = n
      · simp [dget, hn]
      · simp [dget, hn, ih]

theorem dget_dupdate_absent {A : Type} (d2 d1 : List (String × A)) (n : String)
    (h : ∀ p ∈ d2, p.1 ≠ n) : dget (dupdate d1 d2) n = dget d1 n := by
  induction d2 generalizing d1 with
  | nil => simp [dupdate]
  | cons p rest ih =>
    have hstep : dupdate d1 (p :: rest) = dupdate (dinsert d1 p.1 p.2) rest := by
      simp [dupdate]
    rw [hstep, ih (dinsert d1 p.1 p.2) (fun q hq => h q (List.mem_cons_of_mem p hq)),
      dget_dinsert_ne d1 p.1 n p.2 (h p (List.mem_cons_self p rest))]

theorem dget_dupdate_mem {A : Type} (d2 d1 : List (String × A)) (n : String) (v : A)
    (hnd : (d2.map Prod.fst).Nodup) (h : dget d2 n = some v) :
    dget (dupdate d1 d2) n = some v := by
  induction d2 generalizing d1 with
  | nil => simp [dget] at h
  | cons p rest ih =>
    have hstep : dupdate d1 (p :: rest) = dupdate (dinsert d1 p.1 p.2) rest := by
      simp [dupdate]
    rw [hstep]
    have hnd2 : p.1 ∉ rest.map Prod.fst ∧ (rest.map Prod.fst).Nodup := by
      rw [List.map_cons, List.nodup_cons] at hnd
      exact hnd
    by_cases hp : p.1 = n
    · have hv : p.2 = v := by simp [dget, hp] at h; exact h
      have habs : ∀ q ∈ rest, q.1 ≠ n := by
        intro q hq hqn
        exact hnd2.1 (by rw [hp, ← hqn]; exact List.mem_map_of_mem Prod.fst hq)
      rw [dget_dupdate_absent rest (dinsert d1 p.1 p.2) n habs, hp,
        dget_dinsert_self d1 n p.2, hv]
    · have hrest : dget rest n = some v := by simp [dget, hp] at h; exact h
      exact ih (dinsert d1 p.1 p.2) hnd2.2 hrest

/-! ## Claim C1 — binding-environment precedence in `ejecutar_modelo` -/

/-- C1 counterexample: with scenario `{x: 1}` and constants `{x: 2}`,
the environment `ejecutar_modelo` builds binds `x` to the constant 2 —
not to the scenario value 1 as the claim states — because
`entorno.update(constants)` runs after `entorno.update(escenario)`. -/
theorem C1_contraejemplo :
    dget (construirEntorno [("x", 1)] [("x", 2)]) "x" = some 2 ∧
    ¬ dget (construirEntorno [("x", 1)] [("x", 2)]) "x" = some 1 := by
  decide

/-- C1 amended: the binding environment merges the scenario's variables
and then the model's constants, so on a name collision the constant's
value (not the scenario's) is the one used; and `ejecutar_modelo`
evaluates the formula in exactly that environment. -/
theorem C1_precedencia_constantes :
    (∀ (esc con : Entorno) (n : String) (v : Q),
      (con.map Prod.fst).Nodup → dget con n = some v →
      dget (construirEntorno esc con) n = some v) ∧
    (∀ (evalF : String → Entorno → Except String Q) (m : Modelo) (f : String)
      (esc : Entorno) (v : Q),
      m.model = some f →
      evalF (expresionDe f) (construirEntorno esc m.constants) = .ok v →
      ejecutarModelo evalF m esc = .ok (some v)) := by
  constructor
  · intro esc con n v hnd hv
    exact dget_dupdate_mem con (dupdate [] esc) n v hnd hv
  · intro evalF m f esc v hm hv
    simp [ejecutarModelo, hm, hv]

/-- Concrete model with an `x` constant, used by witnesses. -/
def modeloX : Modelo :=
  { model := some "resultado = x", constants := [("x", 2)], distributions := [] }

/-- Concrete evaluator that reads back the variable `x`. -/
def evalLeeX : String → Entorno → Except String Q := fun _ e =>
  match dget e "x" with
  | some v => Except.ok v
  | none => Except.error "name x is not defined"

/-- C1 witness: the amended theorem applied at scenario `{x: 1}`,
constants `{x: 2}`, and an evaluator reading back `x`. -/
theorem C1_testigo :
    (((([("x", (2 : Q))] : Entorno).map Prod.fst).Nodup ∧
      dget ([("x", (2 : Q))] : Entorno) "x" = some 2) ∧
      dget (construirEntorno [("x", 1)] [("x", 2)]) "x" = some 2) ∧
    ((modeloX.model = some "resultado = x" ∧
      evalLeeX (expresionDe "resultado = x")
        (construirEntorno [("x", 1)] modeloX.constants) = .ok 2) ∧
      ejecutarModelo evalLeeX modeloX [("x", 1)] = .ok (some 2)) :=
  ⟨⟨⟨by decide, by decide⟩,
    C1_precedencia_constantes.1 [("x", 1)] [("x", 2)] "x" 2 (by decide) (by decide)⟩,
   ⟨⟨by decide, by decide⟩,
    C1_precedencia_constantes.2 evalLeeX modeloX "resultado = x" [("x", 1)] 2 rfl
      (by decide)⟩⟩

/-! ## Claim C4 — JSON-first parsing with exact DSL fallback -/

/-- C4: `leer_modelo` first attempts the structured (JSON) parse of the
stripped source text; the DSL parser runs exactly when that parse fails,
and the resulting model is entirely the output of one parser. -/
theorem C4_json_luego_dsl :
    ∀ (jsonLoads : String → Option Modelo) (texto : String),
      (∃ m, jsonLoads (pyStrip texto) = some m ∧ leerModelo jsonLoads texto = .ok m) ∨
      (jsonLoads (pyStrip texto) = none ∧
        leerModelo jsonLoads texto = parsearModelo (pyStrip texto)) := by
  intro jsonLoads texto
  cases h : jsonLoads (pyStrip texto) with
  | some m => exact Or.inl ⟨m, rfl, by simp [leerModelo, h]⟩
  | none => exact Or.inr ⟨rfl, by simp [leerModelo, h]⟩

/-! ## Claim C10 — list-form specs other than the constant kind -/

/-- C10: a list-form distribution spec whose first element is not the
string constant kind is not reported through the unrecognized-
distribution `ValueError` of the string path: it falls through to the
regex matcher, which raises a `TypeError` (a different, undocumented
exception) because matching is applied to a non-string. -/
theorem C10_lista_typeerror (hd : PyVal) (tl : List PyVal)
    (h : hd ≠ PyVal.s "constante") :
    evaluarDistribucionSpec (.list (hd :: tl)) =
      .error (.typeError "expected string or bytes-like object") ∧
    ∀ msg : String,
      (PyErr.typeError "expected string or bytes-like object") ≠ PyErr.valueError msg := by
  refine ⟨?_, fun msg h2 => by cases h2⟩
  simp [evaluarDistribucionSpec, h]

/-- C10 witness: the two-element list `["uniform", 1]`. -/
theorem C10_testigo :
    (PyVal.s "uniform" ≠ PyVal.s "constante") ∧
    evaluarDistribucionSpec (.list [.s "uniform", .num 1]) =
      .error (.typeError "expected string or bytes-like object") :=
  ⟨by decide, (C10_lista_typeerror (.s "uniform") [.num 1] (by decide)).1⟩

/-! ## Claim C8 — worker behaviour on formula-evaluation failure -/

/-- C8: when the evaluation of the formula on a scenario raises (an
undefined variable, a division by zero, malformed syntax — any
exception of the abstracted `eval`), the worker catches it inside
`ejecutar_modelo`: the callback publishes no result record, leaves the
published-results counter unchanged, and still acknowledges the task,
returning normally instead of crashing the consumption loop. -/
theorem C8_fallo_evaluacion (evalF : String → Entorno → Except String Q) (m : Modelo)
    (f : String) (wid : String) (ts : Q) (st : WorkerState) (esc : Entorno) (err : String)
    (hm : m.model = some f)
    (he : evalF (expresionDe f) (construirEntorno esc m.constants) = .error err) :
    procesarEscenario evalF m wid ts st esc = .ok (st, true) := by
  simp [procesarEscenario, ejecutarModelo, hm, he]

/-- Concrete model without constants, used by the C8 witness. -/
def modeloSoloX : Modelo :=
  { model := some "resultado = x", constants := [], distributions := [] }

/-- Concrete evaluator that always raises, used by the C8 witness. -/
def evalFalla : String → Entorno → Except String Q := fun _ _ =>
  Except.error "name x is not defined"

/-- C8 witness: an evaluator raising an undefined-variable error on a
concrete scenario leaves the worker state untouched and acknowledged. -/
theorem C8_testigo :
    (modeloSoloX.model = some "resultado = x" ∧
      evalFalla (expresionDe "resultado = x")
        (construirEntorno [("y", 3)] modeloSoloX.constants) =
        .error "name x is not defined") ∧
    procesarEscenario evalFalla modeloSoloX "VM1" 0
      { publicados := [], contador := 0 } [("y", 3)] =
      .ok ({ publicados := [], contador := 0 }, true) :=
  ⟨⟨rfl, rfl⟩,
   C8_fallo_evaluacion evalFalla modeloSoloX "resultado = x" "VM1" 0
     { publicados := [], contador := 0 } [("y", 3)] "name x is not defined" rfl rfl⟩

/-! ## Claim C3 — distribution parameter validation -/

/-- C3 counterexample: evaluating `uniform(5, 1)` with a = 5 ≥ b = 1
returns a sample request instead of failing — no `InvalidDistribution`
(or any other) error is raised for out-of-order parameters. -/
theorem C3_contraejemplo :
    evaluarDistribucionSpec (.str "uniform(5, 1)") = .ok (.uniformS 5 1) ∧
    (1 : Q) ≤ 5 := by
  constructor
  · decide
  · norm_num

/-- C3 amended: `_evaluar_distribucion` performs no parameter
validation.  Whenever the textual spec matches a pattern and its
arguments convert with `float`, the parameters are forwarded to the
sampler as-is — regardless of a ≥ b for `uniform`, sigma ≤ 0 for
`normal`, or an order violation for `triangular`; no
`InvalidDistribution` error exists. -/
theorem C3_sin_validacion :
    (∀ (s g1 g2 : String) (a b : Q),
      matchDosArgs "uniform(" s = some (g1, g2) →
      pyFloat g1 = some a → pyFloat g2 = some b →
      evaluarDistribucionSpec (.str s) = .ok (.uniformS a b)) ∧
    (∀ (s g1 g2 : String) (mu sg : Q),
      matchDosArgs "uniform(" s = none →
      matchDosArgs "normal(" s = some (g1, g2) →
      pyFloat g1 = some mu → pyFloat g2 = some sg →
      evaluarDistribucionSpec (.str s) = .ok (.normalS mu sg)) ∧
    (∀ (s g1 g2 g3 : String) (a b c : Q),
      matchDosArgs "uniform(" s = none →
      matchDosArgs "normal(" s = none →
      matchTresArgs s = some (g1, g2, g3) →
      pyFloat g1 = some a → pyFloat g2 = some b → pyFloat g3 = some c →
      evaluarDistribucionSpec (.str s) = .ok (.triangularS a b c)) := by
  refine ⟨?_, ?_, ?_⟩
  · intro s g1 g2 a b hm h1 h2
    simp [evaluarDistribucionSpec, evaluarCadena, hm, pyFloatVal, h1, h2]
    rfl
  · intro s g1 g2 mu sg hu hm h1 h2
    simp [evaluarDistribucionSpec, evaluarCadena, hu, hm, pyFloatVal, h1, h2]
    rfl
  · intro s g1 g2 g3 a b c hu hn hm h1 h2 h3
    simp [evaluarDistribucionSpec, evaluarCadena, hu, hn, hm, pyFloatVal, h1, h2, h3]
    rfl

/-- C3 witness: `uniform(5, 1)`, `normal(0, -1)` and
`triangular(3, 2, 1)` all sample despite violating the parameter
conditions. -/
theorem C3_testigo :
    (matchDosArgs "uniform(" "uniform(5, 1)" = some ("5", "1") ∧
      evaluarDistribucionSpec (.str "uniform(5, 1)") = .ok (.uniformS 5 1)) ∧
    (matchDosArgs "normal(" "normal(0, -1)" = some ("0", "-1") ∧
      evaluarDistribucionSpec (.str "normal(0, -1)") = .ok (.normalS 0 (-1))) ∧
    (matchTresArgs "triangular(3, 2, 1)" = some ("3", "2", "1") ∧
      evaluarDistribucionSpec (.str "triangular(3, 2, 1)") = .ok (.triangularS 3 2 1)) :=
  ⟨⟨by decide,
    C3_sin_validacion.1 "uniform(5, 1)" "5" "1" 5 1 (by decide) (by decide) (by decide)⟩,
   ⟨by decide,
    C3_sin_validacion.2.1 "normal(0, -1)" "0" "-1" 0 (-1) (by decide) (by decide)
      (by decide) (by decide)⟩,
   ⟨by decide,
    C3_sin_validacion.2.2 "triangular(3, 2, 1)" "3" "2" "1" 3 2 1 (by decide) (by decide)
      (by decide) (by decide) (by decide) (by decide)⟩⟩

/-! ## Claim C7 — the scenario-count prompt -/

/-- C7 counterexample: the inputs `"0"` and `"-5"` are parsed as the
integers 0 and −5 and used as-is — they do not default to 100 — and the
count 0 generates zero scenarios, not 100. -/
theorem C7_contraejemplo :
    leerCantidad "0" = 0 ∧ leerCantidad "0" ≠ 100 ∧ leerCantidad "-5" = -5 ∧
    generarEscenarios (fun _ => 0) modeloVacio (leerCantidad "0") = .ok [] := by
  refine ⟨by decide, by decide, by decide, ?_⟩
  decide

/-- C7 amended: a blank input or an input `int` rejects defaults to
100; any input that parses as an integer — including non-positive ones
— is used as-is, and a non-positive count generates zero scenarios. -/
theorem C7_cantidad :
    (∀ s : String, pyStrip s = "" → leerCantidad s = 100) ∧
    (∀ s : String, pyStrip s ≠ "" → pyInt s = none → leerCantidad s = 100) ∧
    (∀ (s : String) (n : Int), pyStrip s ≠ "" → pyInt s = some n → leerCantidad s = n) ∧
    (∀ (muestra : SampleReq → Q) (m : Modelo) (n : Int), n ≤ 0 →
      generarEscenarios muestra m n = .ok []) := by
  refine ⟨?_, ?_, ?_, ?_⟩
  · intro s h
    simp [leerCantidad, h]
  · intro s h1 h2
    simp [leerCantidad, h1, h2]
  · intro s n h1 h2
    simp [leerCantidad, h1, h2]
  · intro muestra m n hn
    have h0 : n.toNat = 0 := Int.toNat_eq_zero.mpr hn
    simp [generarEscenarios, h0, generarLista]

/-- C7 witness: blank, non-numeric, numeric and negative inputs. -/
theorem C7_testigo :
    (pyStrip "  " = "" ∧ leerCantidad "  " = 100) ∧
    (pyStrip "abc" ≠ "" ∧ pyInt "abc" = none ∧ leerCantidad "abc" = 100) ∧
    (pyStrip "7" ≠ "" ∧ pyInt "7" = some 7 ∧ leerCantidad "7" = 7) ∧
    ((-3 : Int) ≤ 0 ∧ generarEscenarios (fun _ => 0) modeloVacio (-3) = .ok []) :=
  ⟨⟨by decide, C7_cantidad.1 "  " (by decide)⟩,
   ⟨by decide, by decide, C7_cantidad.2.1 "abc" (by decide) (by decide)⟩,
   ⟨by decide, by decide, C7_cantidad.2.2.1 "7" 7 (by decide) (by decide)⟩,
   ⟨by decide, C7_cantidad.2.2.2 (fun _ => 0) modeloVacio (-3) (by decide)⟩⟩

/-! ## Claim C2 — aggregator acknowledgement discipline -/

/-- C2 counterexample: a record whose dashboard publish raises is
negatively acknowledged, yet the log line already written and the
in-memory results update survive — the effects are not all-or-nothing. -/
theorem C2_contraejemplo :
    (procesarResultado .publish
        (some { resultado := .num 1, esc := [], worker_id := some "w" }) "t"
        { lines := [], flushedLines := 0, resultados := [], dashboard := [],
          acks := 0, nacks := 0 }).nacks = 1 ∧
    (procesarResultado .publish
        (some { resultado := .num 1, esc := [], worker_id := some "w" }) "t"
        { lines := [], flushedLines := 0, resultados := [], dashboard := [],
          acks := 0, nacks := 0 }).acks = 0 ∧
    (procesarResultado .publish
        (some { resultado := .num 1, esc := [], worker_id := some "w" }) "t"
        { lines := [], flushedLines := 0, resultados := [], dashboard := [],
          acks := 0, nacks := 0 }).resultados = [.num 1] ∧
    (procesarResultado .publish
        (some { resultado := .num 1, esc := [], worker_id := some "w" }) "t"
        { lines := [], flushedLines := 0, resultados := [], dashboard := [],
          acks := 0, nacks := 0 }).lines.length = 1 := by
  decide

/-- C2 amended: every inbound record is either negatively acknowledged
with the ack counter untouched (when decoding, formatting, the write,
the flush or the publish raises), or acknowledged exactly after the log
line is written and flushed, the in-memory results are extended and the
projection is published; however the effects completed before a failing
step persist rather than being rolled back. -/
theorem C2_ack_tras_efectos :
    ∀ (falla : IOFail) (cuerpo : Option ResultMsgIn) (ts : String) (st : CState),
      ((procesarResultado falla cuerpo ts st).acks = st.acks ∧
        (procesarResultado falla cuerpo ts st).nacks = st.nacks + 1) ∨
      ((procesarResultado falla cuerpo ts st).acks = st.acks + 1 ∧
        (procesarResultado falla cuerpo ts st).nacks = st.nacks ∧
        (procesarResultado falla cuerpo ts st).lines.length = st.lines.length + 1 ∧
        (procesarResultado falla cuerpo ts st).flushedLines =
          (procesarResultado falla cuerpo ts st).lines.length ∧
        (procesarResultado falla cuerpo ts st).resultados.length =
          st.resultados.length + 1 ∧
        (procesarResultado falla cuerpo ts st).dashboard.length =
          st.dashboard.length + 1) := by
  intro falla cuerpo ts st
  cases cuerpo with
  | none => exact Or.inl (by simp [procesarResultado])
  | some msg =>
    cases hq : fmt4 msg.resultado with
    | none => exact Or.inl (by simp [procesarResultado, hq])
    | some q =>
      cases falla with
      | ninguno => exact Or.inr (by simp [procesarResultado, hq])
      | write => exact Or.inl (by simp [procesarResultado, hq])
      | flush => exact Or.inl (by simp [procesarResultado, hq])
      | publish => exact Or.inl (by simp [procesarResultado, hq])

/-! ## Claim C5 — DSL parse failures -/

/-- A line that is not a `model:` header leaves the `model` field of the
section state unchanged. -/
theorem procesarLinea_conserva_model (st : Sec × Modelo) (l : List Char) (r : Sec × Modelo)
    (hl : empiezaCon "model:".data (pyStripChars l) = false)
    (h : procesarLinea st l = .ok r) : r.2.model = st.2.model := by
  simp only [procesarLinea] at h
  split at h
  · cases h
    rfl
  · split at h
    · simp_all
    · split at h
      · cases h
        rfl
      · split at h
        · cases h
          rfl
        · split at h
          · split at h
            · split at h
              · cases h
                rfl
              · simp at h
            · simp at h
          · split at h
            · split at h
              · cases h
                rfl
              · simp at h
            · cases h
              rfl

/-- Processing lines none of which is a `model:` header cannot set the
`model` field. -/
theorem procesaLineas_sin_model (lines : List (List Char)) :
    ∀ (st : Sec × Modelo) (r : Sec × Modelo),
      (∀ l ∈ lines, empiezaCon "model:".data (pyStripChars l) = false) →
      st.2.model = none → procesaLineas lines st = .ok r → r.2.model = none := by
  induction lines with
  | nil =>
    intro st r _ hm h
    cases h
    exact hm
  | cons l rest ih =>
    intro st r hl hm h
    simp only [procesaLineas] at h
    cases h2 : procesarLinea st l with
    | error e => rw [h2] at h; simp at h
    | ok st2 =>
      rw [h2] at h
      have hpres : st2.2.model = st.2.model :=
        procesarLinea_conserva_model st l st2 (hl l (List.mem_cons_self l rest)) h2
      exact ih st2 r (fun x hx => hl x (List.mem_cons_of_mem l hx)) (hpres.trans hm) h

/-- C5 counterexample: DSL text whose `model:` section is missing does
not fail with any error (let alone a `ModelParseError`, which does not
exist in the code): it returns a model whose formula is `None`. -/
theorem C5_contraejemplo :
    parsearModelo "constants:\nx = 1" =
      .ok { model := none, constants := [("x", 1)], distributions := [] } := by
  decide

/-- C5 amended: a missing `model:` section yields a successfully parsed
model whose formula is `None` rather than an error; a malformed
`key=value` constant line raises a plain `ValueError` (from tuple
unpacking or from `float`), not a `ModelParseError`. -/
theorem C5_parseo :
    (∀ (texto : String) (m : Modelo),
      (∀ l ∈ splitLinesPy texto.data,
        empiezaCon "model:".data (pyStripChars l) = false) →
      parsearModelo texto = .ok m → m.model = none) ∧
    parsearModelo "model: resultado = x\nconstants:\na=b=c" =
      .error (.valueError "too many values to unpack") ∧
    parsearModelo "model: resultado = x\nconstants:\nx = abc" =
      .error (.valueError "could not convert string to float") := by
  refine ⟨?_, by decide, by decide⟩
  intro texto m hl h
  simp only [parsearModelo, Except.map] at h
  cases h2 : procesaLineas (splitLinesPy texto.data) (Sec.ninguna, modeloVacio) with
  | error e => rw [h2] at h; simp at h
  | ok st =>
    rw [h2] at h
    simp at h
    have := procesaLineas_sin_model (splitLinesPy texto.data)
      (Sec.ninguna, modeloVacio) st hl rfl h2
    rw [← h]
    exact this

/-- C5 witness: the missing-`model:` text from the counterexample
satisfies the no-`model:`-line hypothesis, and its parsed model indeed
has no formula. -/
theorem C5_testigo :
    (∀ l ∈ splitLinesPy ("constants:\nx = 1" : String).data,
      empiezaCon "model:".data (pyStripChars l) = false) ∧
    Modelo.model { model := none, constants := [("x", 1)], distributions := [] } = none :=
  ⟨by decide,
   C5_parseo.1 "constants:\nx = 1"
     { model := none, constants := [("x", 1)], distributions := [] }
     (by decide) (by decide)⟩

/-! ## Claim C6 — scenario generation -/

theorem dget_dinsert_alguno {A : Type} (d : List (String × A)) (k n : String) (v : A)
    (h : (dget d n).isSome) : (dget (dinsert d k v) n).isSome := by
  by_cases hk : k = n
  · rw [hk, dget_dinsert_self]
    rfl
  · rw [dget_dinsert_ne d k n v hk]
    exact h

/-- When every declared spec evaluates, the scenario fold succeeds and
binds every declared key (and preserves prior bindings). -/
theorem generarEscenario_fold (muestra : SampleReq → Q)
    (distros : List (String × DistExpr)) :
    ∀ acc : Entorno,
      (∀ p ∈ distros, ∃ req, evaluarDistribucionSpec p.2 = .ok req) →
      ∃ e, List.foldlM
          (fun esc p => (evaluarDistribucion muestra p.2).map (dinsert esc p.1))
          acc distros = .ok e ∧
        (∀ p ∈ distros, (dget e p.1).isSome) ∧
        (∀ n, (dget acc n).isSome → (dget e n).isSome) := by
  induction distros with
  | nil =>
    intro acc _
    exact ⟨acc, rfl, by simp, fun n h => h⟩
  | cons p rest ih =>
    intro acc hok
    obtain ⟨req, hreq⟩ := hok p (List.mem_cons_self p rest)
    have heval : evaluarDistribucion muestra p.2 = .ok (muestra req) := by
      rw [evaluarDistribucion, hreq]
      rfl
    obtain ⟨e, he, h1, h2⟩ :=
      ih (dinsert acc p.1 (muestra req)) (fun q hq => hok q (List.mem_cons_of_mem p hq))
    refine ⟨e, ?_, ?_, ?_⟩
    · rw [List.foldlM_cons, heval]
      simpa using he
    · intro z hz
      rcases List.mem_cons.mp hz with h | h
      · rw [h]
        exact h2 p.1 (by rw [dget_dinsert_self]; rfl)
      · exact h1 z h
    · intro n hn
      exact h2 n (dget_dinsert_alguno acc p.1 n (muestra req) hn)

/-- When one scenario can be generated, the count loop yields exactly
that many copies of the construction. -/
theorem generarLista_ok (muestra : SampleReq → Q) (distros : List (String × DistExpr))
    (e : List (String × Q)) (he : generarEscenario muestra distros = .ok e) :
    ∀ k : Nat, ∃ escs, generarLista muestra distros k = .ok escs ∧
      escs.length = k ∧ ∀ x ∈ escs, x = e := by
  intro k
  induction k with
  | zero => exact ⟨[], rfl, rfl, by simp⟩
  | succ n ih =>
    obtain ⟨escs, h1, h2, h3⟩ := ih
    refine ⟨e :: escs, ?_, by simp [h2], ?_⟩
    · simp only [generarLista, he, h1]
      rfl
    · intro x hx
      rcases List.mem_cons.mp hx with h | h
      · exact h
      · exact h3 x h

/-- C6: for a model in the documented shape (no `variables` alias key)
whose distribution specs all evaluate, generating scenarios with any
count k yields exactly k scenarios, each binding every key declared in
the model's distributions; k = 0 yields the empty list. -/
theorem C6_generacion (muestra : SampleReq → Q) (m : Modelo) (k : Nat)
    (h1 : m.variablesM = none)
    (h2 : ∀ p ∈ m.distributions, ∃ req, evaluarDistribucionSpec p.2 = .ok req) :
    ∃ escs, generarEscenarios muestra m (k : Int) = .ok escs ∧ escs.length = k ∧
      ∀ esc ∈ escs, ∀ p ∈ m.distributions, ∃ v, dget esc p.1 = some v := by
  obtain ⟨e, he, hbind, _⟩ := generarEscenario_fold muestra m.distributions [] h2
  have hesc : generarEscenario muestra m.distributions = .ok e := he
  obtain ⟨escs, hg, hlen, hall⟩ := generarLista_ok muestra m.distributions e hesc k
  refine ⟨escs, ?_, hlen, ?_⟩
  · have htn : (k : Int).toNat = k := by simp
    simp only [generarEscenarios, h1, Option.getD, htn]
    exact hg
  · intro esc hin p hp
    rw [hall esc hin]
    exact Option.isSome_iff_exists.mp (hbind p hp)

/-- Concrete one-distribution model for the C6 witness. -/
def modeloC6 : Modelo :=
  { model := some "resultado = x", constants := [],
    distributions := [("x", .str "constante(2)")] }

/-- C6 witness: two scenarios over `{x ~ constante(2)}`, each binding
`x`. -/
theorem C6_testigo :
    (modeloC6.variablesM = none ∧
      (∀ p ∈ modeloC6.distributions, ∃ req, evaluarDistribucionSpec p.2 = .ok req)) ∧
    (∃ escs, generarEscenarios (fun _ => 0) modeloC6 (2 : Int) = .ok escs ∧
      escs.length = 2 ∧
      ∀ esc ∈ escs, ∀ p ∈ modeloC6.distributions, ∃ v, dget esc p.1 = some v) := by
  have hspec : ∀ p ∈ modeloC6.distributions, ∃ req, evaluarDistribucionSpec p.2 = .ok req := by
    intro p hp
    simp only [modeloC6, List.mem_singleton] at hp
    subst hp
    exact ⟨.constS 2, by decide⟩
  exact ⟨⟨rfl, hspec⟩, C6_generacion (fun _ => 0) modeloC6 2 rfl hspec⟩

/-! ## Claim C9 — bounded per-worker history -/

/-- One history step turns the last-200 view of the past into the
last-200 view of the past extended by one sample. -/
theorem ultimos200_paso (s : List Q) (r : Q) :
    historialStep (ultimos200 s) r = ultimos200 (s ++ [r]) := by
  unfold ultimos200 historialStep
  by_cases h : s.length < 200
  · have e1 : s.length - 200 = 0 := by omega
    rw [e1, List.drop_zero]
    have e2 : ¬ (s ++ [r]).length > 200 := by
      rw [List.length_append]
      simp
      omega
    rw [if_neg e2]
    have e3 : (s ++ [r]).length - 200 = 0 := by
      rw [List.length_append]
      simp
      omega
    rw [e3, List.drop_zero]
  · push_neg at h
    have hlen : (s.drop (s.length - 200)).length = 200 := by
      rw [List.length_drop]
      omega
    have e2 : (s.drop (s.length - 200) ++ [r]).length > 200 := by
      rw [List.length_append, hlen]
      simp
    rw [if_pos e2]
    rw [← List.drop_one]
    rw [List.drop_append_of_le_length (by omega : 1 ≤ (s.drop (s.length - 200)).length)]
    rw [List.drop_drop]
    have e3 : (s ++ [r]).length - 200 ≤ s.length := by
      rw [List.length_append, List.length_singleton]
      omega
    rw [List.drop_append_of_le_length e3]
    have e4 : s.length - 200 + 1 = (s ++ [r]).length - 200 := by
      rw [List.length_append, List.length_singleton]
      omega
    rw [e4]

theorem dget_agregar_existente (datos : List (String × WEntry)) (wid : String) (r : Q)
    (d : WEntry) (h : dget datos wid = some d) :
    dget (agregarResultado datos wid r) wid =
      some ⟨d.color, historialStep d.historial r, d.conteo + 1, r⟩ := by
  simp [agregarResultado, h, dget_dinsert_self]

theorem dget_agregar_nuevo (datos : List (String × WEntry)) (wid : String) (r : Q)
    (h : dget datos wid = none) :
    dget (agregarResultado datos wid r) wid =
      some ⟨datos.length % 6, historialStep [] r, 1, r⟩ := by
  simp [agregarResultado, h, dget_dinsert_self]

theorem dget_agregar_otro (datos : List (String × WEntry)) (wid : String) (r : Q)
    (w : String) (hw : w ≠ wid) :
    dget (agregarResultado datos wid r) w = dget datos w := by
  have hne : wid ≠ w := fun he => hw he.symm
  cases h : dget datos wid with
  | some d =>
    simp only [agregarResultado, h, Option.isSome_some, if_true]
    rw [dget_dinsert_ne datos wid w _ hne]
  | none =>
    simp only [agregarResultado, h, Option.isSome_none, Bool.false_eq_true, if_false,
      dget_dinsert_self]
    rw [dget_dinsert_ne _ wid w _ hne, dget_dinsert_ne datos wid w _ hne]

/-- The store invariant: every present entry's history is the last-200
view of that worker's accepted values `f w`, and absent workers have an
empty past. -/
def InvAlmacen (datos : List (String × WEntry)) (f : String → List Q) : Prop :=
  (∀ w e, dget datos w = some e → e.historial = ultimos200 (f w)) ∧
  (∀ w, dget datos w = none → f w = [])

theorem inv_congr (datos : List (String × WEntry)) (f g : String → List Q)
    (hfg : ∀ w, g w = f w) (h : InvAlmacen datos f) : InvAlmacen datos g := by
  refine ⟨fun w e he => ?_, fun w he => ?_⟩
  · rw [hfg w]
    exact h.1 w e he
  · rw [hfg w]
    exact h.2 w he

theorem inv_agregar (datos : List (String × WEntry)) (f : String → List Q)
    (wid : String) (r : Q) (hInv : InvAlmacen datos f) :
    InvAlmacen (agregarResultado datos wid r)
      (fun w => if w = wid then f w ++ [r] else f w) := by
  constructor
  · intro w e he
    by_cases hw : w = wid
    · subst hw
      cases h : dget datos w with
      | some d =>
        rw [dget_agregar_existente datos w r d h] at he
        have hd := hInv.1 w d h
        cases he
        rw [hd, ultimos200_paso]
        simp
      | none =>
        rw [dget_agregar_nuevo datos w r h] at he
        have hd := hInv.2 w h
        cases he
        show historialStep [] r = ultimos200 (if w = w then f w ++ [r] else f w)
        rw [if_pos rfl, hd]
        exact ultimos200_paso [] r
    · rw [dget_agregar_otro datos wid r w hw] at he
      simp only [if_neg hw]
      exact hInv.1 w e he
  · intro w he
    by_cases hw : w = wid
    · subst hw
      cases h : dget datos w with
      | some d => rw [dget_agregar_existente datos w r d h] at he; cases he
      | none => rw [dget_agregar_nuevo datos w r h] at he; cases he
    · rw [dget_agregar_otro datos wid r w hw] at he
      simp only [if_neg hw]
      exact hInv.2 w he

theorem inv_procesa (msgs : List (String × Q)) :
    ∀ (datos : List (String × WEntry)) (f : String → List Q),
      InvAlmacen datos f →
      InvAlmacen (procesaMsgs datos msgs) (fun w => f w ++ resultadosDe w msgs) := by
  induction msgs with
  | nil =>
    intro datos f h
    refine inv_congr _ _ _ (fun w => ?_) h
    simp [procesaMsgs, resultadosDe]
  | cons p rest ih =>
    intro datos f h
    have hstep : procesaMsgs datos (p :: rest) =
        procesaMsgs (agregarResultado datos p.1 p.2) rest := rfl
    rw [hstep]
    have h2 := ih (agregarResultado datos p.1 p.2)
      (fun w => if w = p.1 then f w ++ [p.2] else f w)
      (inv_agregar datos f p.1 p.2 h)
    refine inv_congr _ _ _ (fun w => ?_) h2
    by_cases hw : w = p.1
    · simp [resultadosDe, hw, List.filterMap_cons]
    · have hne : ¬ p.1 = w := fun he => hw he.symm
      simp [resultadosDe, hw, List.filterMap_cons, hne]

/-- C9: for every stream of accepted display results, every worker's
stored history is exactly the last at-most-200 of that worker's values
— so it never exceeds 200 samples, and beyond that length it is the
oldest sample that has been dropped. -/
theorem C9_historial_acotado (msgs : List (String × Q)) (w : String) (e : WEntry)
    (h : dget (procesaMsgs [] msgs) w = some e) :
    e.historial = ultimos200 (resultadosDe w msgs) ∧ e.historial.length ≤ 200 := by
  have hInv0 : InvAlmacen [] (fun _ => []) :=
    ⟨fun w e he => by simp [dget] at he, fun w _ => rfl⟩
  have h1 := (inv_procesa msgs [] (fun _ => []) hInv0).1 w e h
  simp only [List.nil_append] at h1
  refine ⟨h1, ?_⟩
  rw [h1]
  unfold ultimos200
  rw [List.length_drop]
  omega

/-- Concrete worker entry for the C9 witness. -/
def entradaA : WEntry := { color := 0, historial := [1, 2], conteo := 2, ultimo := 2 }

/-- C9 witness: the stream of two values for worker `a` leaves it with
history `[1, 2]`, the last-200 view of its values, of length at most
200. -/
theorem C9_testigo :
    dget (procesaMsgs [] [("a", 1), ("a", 2)]) "a" = some entradaA ∧
    (entradaA.historial = ultimos200 (resultadosDe "a" [("a", 1), ("a", 2)]) ∧
      entradaA.historial.length ≤ 200) :=
  ⟨by decide, C9_historial_acotado [("a", 1), ("a", 2)] "a" entradaA (by decide)⟩
